import Mathlib

/-!
Shallow embedding of the event bus of `backend/services/event_bus.py`
(SnoopTrade). Machine-level aspects are made explicit:

* Python strings are Lean `String`s, but `str.strip()` and slicing are
  re-implemented over `List Char` (`pyStrip`, `pyTake`) so that they
  evaluate inside the kernel.
* `uuid.uuid4()` is modelled by a counter state (`uuidNext`): each draw
  returns a value never returned before, which is the property the code
  relies on.  Wall-clock reads (`datetime.now`) are modelled by a `Nat`
  parameter `now`.
* Exceptions raised by a handler are modelled by the handler returning
  `some errorMessage`; an exception propagating out of a function is an
  `Except`/`Option` error value in its codomain.
* The Mongo dead-letter collection is a `List DLDoc`; `find_one` is
  `List.find?` on `_id`, `update_one` updates the first match.
-/

namespace EventBus

/-- Python `str.strip()` on the character list (default whitespace strip). -/
def stripChars (l : List Char) : List Char :=
  ((l.dropWhile Char.isWhitespace).reverse.dropWhile Char.isWhitespace).reverse

/-- Python `str.strip()`. -/
def pyStrip (s : String) : String := String.mk (stripChars s.data)

/-- Python string slicing `s[:n]` (per character). -/
def pyTake (s : String) (n : Nat) : String := String.mk (s.data.take n)

/-- Digits of a decimal literal.  `none` when a non-digit occurs or the
list is empty (the failure cases of Python `int(...)` after sign removal). -/
def parseDigits : List Char → Option Nat
  | [] => none
  | l => l.foldl
      (fun acc c => match acc with
        | none => none
        | some n => if c.isDigit then some (n * 10 + (c.toNat - '0'.toNat)) else none)
      (some 0)

/-- Python `int(raw)` on an already-stripped string: optional sign followed
by decimal digits; any other shape raises `ValueError`, modelled as `none`. -/
def pyInt (s : String) : Option Int :=
  match s.data with
  | '+' :: rest => (parseDigits rest).map (fun n => (n : Int))
  | '-' :: rest => (parseDigits rest).map (fun n => -(n : Int))
  | l => (parseDigits l).map (fun n => (n : Int))

/-- A BSON-ish dynamic value, enough to express the well-formed and the
malformed shapes the dead-letter code has to deal with. -/
inductive BVal where
  | vnone : BVal
  | vstr : String → BVal
  | vint : Int → BVal
  | vdict : List (String × BVal) → BVal

/-- Payloads are Python `dict[str, Any]`, modelled as association lists. -/
abbrev Payload := List (String × BVal)

/-- Python `dict.get(k)` on an association list. -/
def dictGet (kvs : Payload) (k : String) : Option BVal :=
  (kvs.find? (fun p => p.1 = k)).map (fun p => p.2)

/-- Python truthiness of a `BVal` (used by `x or ""` / `x or None`). -/
def bvalTruthy : BVal → Bool
  | .vnone => false
  | .vstr s => s != ""
  | .vint n => n != 0
  | .vdict kvs => !kvs.isEmpty

/-- Python `str(x)` restricted to the value shapes the claims exercise;
the textual form of a dict is abstracted (never compared by the code). -/
def pyStr : BVal → String
  | .vnone => "None"
  | .vstr s => s
  | .vint n => toString n
  | .vdict _ => "<dict>"

/-- Python `str(x or "")`. -/
def pyStrOrEmpty (x : BVal) : String :=
  if bvalTruthy x then pyStr x else ""

/-- Result shape of `_build_envelope`. -/
structure Envelope where
  event_id : Nat
  topic : String
  key : Option String
  produced_at : Nat
  payload : Payload

/-- Model of `uuid.uuid4().hex`: a fresh draw from a counter state: returns the
drawn identifier and the successor state.  Distinct states yield distinct
identifiers, the uniqueness the code obtains from UUIDs. -/
def uuidNext (s : Nat) : Nat × Nat := (s, s + 1)

/-- Embedding of `_build_envelope(topic, payload, key=key)`.  The Python function body is
a single dict literal: it performs no validation and cannot raise.  The
fresh uuid draw and the clock read are the `eventId` and `now` arguments. -/
def buildEnvelope (topic : String) (payload : Payload) (key : Option String)
    (eventId : Nat) (now : Nat) : Envelope :=
  { event_id := eventId
    topic := topic
    key := key
    produced_at := now
    payload := payload }

/-- Embedding of `_max_handler_retries()`: reads `EVENT_BUS_HANDLER_MAX_RETRIES`
(`none` = unset), strips, substitutes `"2"` for empty, parses with a
`ValueError` fallback to `2`, and clamps to `[0, 8]`. -/
def maxHandlerRetries (env : Option String) : Nat :=
  let raw := pyStrip (env.getD "2")
  let raw := if raw = "" then "2" else raw
  let parsed : Int := (pyInt raw).getD 2
  (max 0 (min 8 parsed)).toNat

/-- Embedding of `_handler_retry_backoff_ms()`: same shape with default `200`, clamp
`[0, 5000]`. -/
def handlerRetryBackoffMs (env : Option String) : Nat :=
  let raw := pyStrip (env.getD "200")
  let raw := if raw = "" then "200" else raw
  let parsed : Int := (pyInt raw).getD 200
  (max 0 (min 5000 parsed)).toNat

/-- A dead-letter document as `_record_dead_letter` persists it. -/
structure DeadLetterRow where
  topic : String
  payload : Payload
  handler : String
  backend : String
  error : String
  attempts : Nat
  status : String
  retry_count : Nat
  created_at : Nat
  updated_at : Nat
  last_failed_at : Nat

/-- Embedding of `_record_dead_letter(...)`: the document inserted into the DLQ
collection (status `"failed"`, `retry_count` 0, error truncated to 2000
characters, all three timestamps set to the same `now`). -/
def recordDeadLetter (topic : String) (payload : Payload) (handlerName : String)
    (backend : String) (error : String) (attempts : Nat) (now : Nat) : DeadLetterRow :=
  { topic := topic
    payload := payload
    handler := handlerName
    backend := backend
    error := pyTake error 2000
    attempts := attempts
    status := "failed"
    retry_count := 0
    created_at := now
    updated_at := now
    last_failed_at := now }

/-- Behaviour of a handler across successive invocations: invocation number
`a` (0-based) either succeeds (`none`) or raises with message `some e`. -/
abbrev Handler := Nat → Option String

/-- Observable outcome of one `_run_handler_with_retry` call. -/
structure RunResult where
  success : Bool
  invocations : Nat
  deadLetters : List DeadLetterRow
  audits : List String

/-- Embedding of `_record_audit`: appends an audit status only when the audit env flag
is on (`_safe_persist` swallows storage errors, so recording never raises). -/
def recordAudit (auditEnabled : Bool) (status : String) : List String :=
  if auditEnabled then [status] else []

/-- The `for attempt in range(retries + 1)` loop body of
`_run_handler_with_retry`.  `remaining` is the number of loop iterations
left (`retries + 1 - attempt`); falling off the loop returns `False`.
On success: audit `"ok"`, return `True`.  On an exception at the final
attempt (`attempt >= retries`): persist one dead letter with
`attempts = attempt + 1`, audit `"dead_lettered"`, return `False`.
Otherwise sleep (time is not modelled) and retry with the next attempt. -/
def runHandlerLoop (handler : Handler) (topic : String) (payload : Payload)
    (backend : String) (handlerLabel : String) (retries : Nat)
    (auditEnabled : Bool) (now : Nat) : Nat → Nat → RunResult
  | _, 0 => { success := false, invocations := 0, deadLetters := [], audits := [] }
  | attempt, remaining + 1 =>
    match handler attempt with
    | none =>
      { success := true
        invocations := 1
        deadLetters := []
        audits := recordAudit auditEnabled "ok" }
    | some exc =>
      if retries ≤ attempt then
        { success := false
          invocations := 1
          deadLetters := [recordDeadLetter topic payload handlerLabel backend exc (attempt + 1) now]
          audits := recordAudit auditEnabled "dead_lettered" }
      else
        let rest := runHandlerLoop handler topic payload backend handlerLabel retries
          auditEnabled now (attempt + 1) remaining
        { success := rest.success
          invocations := rest.invocations + 1
          deadLetters := rest.deadLetters
          audits := rest.audits }

/-- Embedding of `_run_handler_with_retry(...)`
with the configured retry count `retries` (the value of
`_max_handler_retries()`).  Every exception a handler raises is caught by
the loop, and the persistence helpers swallow their own errors, so the
executor is a total function: no exception escapes to the caller. -/
def runHandlerWithRetry (retries : Nat) (handler : Handler) (topic : String)
    (payload : Payload) (backend : String) (handlerLabel : String)
    (auditEnabled : Bool) (now : Nat) : RunResult :=
  runHandlerLoop handler topic payload backend handlerLabel retries auditEnabled now 0 (retries + 1)


/-- Unrolling of the retry loop for a handler that raises on every
invocation: starting at `attempt` with `remaining + 1` iterations left and
`attempt + (remaining + 1) = retries + 1`, the loop makes all remaining
invocations, dead-letters once with `attempts = retries + 1`, and returns
failure. -/
theorem runHandlerLoop_always_fails (e : Nat → String) (topic : String)
    (payload : Payload) (backend handlerLabel : String) (retries : Nat)
    (auditEnabled : Bool) (now : Nat) :
    ∀ remaining attempt, attempt + (remaining + 1) = retries + 1 →
      runHandlerLoop (fun a => some (e a)) topic payload backend handlerLabel retries
          auditEnabled now attempt (remaining + 1) =
        { success := false
          invocations := remaining + 1
          deadLetters := [recordDeadLetter topic payload handlerLabel backend
            (e retries) (retries + 1) now]
          audits := recordAudit auditEnabled "dead_lettered" } := by
  intro remaining
  induction remaining with
  | zero =>
    intro attempt h
    have hattempt : attempt = retries := by omega
    subst hattempt
    simp [runHandlerLoop]
  | succ m ih =>
    intro attempt h
    have hlt : ¬ retries ≤ attempt := by omega
    have hrec := ih (attempt + 1) (by omega)
    rw [runHandlerLoop]
    simp [hlt, hrec]

/-- C1: for a handler that raises on every invocation (raising message
`e a` on invocation `a`), with configured max retries `retries`, the
executor `_run_handler_with_retry` invokes the handler exactly
`retries + 1` times, persists exactly one dead-letter record with
`attempts = retries + 1`, `status = "failed"` and `retry_count = 0`, and
returns failure.  Non-propagation of the exception is captured by the
embedding: the loop catches every handler exception and the persistence
helpers swallow their own errors, so the executor is a total function
into `RunResult` with no error case. -/
theorem c1_retry_exhaustion_single_dead_letter (retries : Nat) (handler : Handler)
    (e : Nat → String) (topic : String) (payload : Payload)
    (backend handlerLabel : String) (auditEnabled : Bool) (now : Nat)
    (hfail : ∀ a, handler a = some (e a)) :
    (runHandlerWithRetry retries handler topic payload backend handlerLabel auditEnabled now).success = false ∧
    (runHandlerWithRetry retries handler topic payload backend handlerLabel auditEnabled now).invocations = retries + 1 ∧
    (runHandlerWithRetry retries handler topic payload backend handlerLabel auditEnabled now).deadLetters.length = 1 ∧
    (runHandlerWithRetry retries handler topic payload backend handlerLabel auditEnabled now).deadLetters.map DeadLetterRow.attempts = [retries + 1] ∧
    (runHandlerWithRetry retries handler topic payload backend handlerLabel auditEnabled now).deadLetters.map DeadLetterRow.status = ["failed"] ∧
    (runHandlerWithRetry retries handler topic payload backend handlerLabel auditEnabled now).deadLetters.map DeadLetterRow.retry_count = [0] := by
  have hh : handler = fun a => some (e a) := funext hfail
  subst hh
  have hrun := runHandlerLoop_always_fails e topic payload backend handlerLabel retries
    auditEnabled now retries 0 (by omega)
  unfold runHandlerWithRetry
  rw [hrun]
  simp [recordDeadLetter]

/-- Witness for C1 at `retries = 2`: the handler is invoked 3 times and
exactly one dead letter with `attempts = 3`, `status = "failed"`,
`retry_count = 0` is persisted. -/
theorem c1_retry_exhaustion_single_dead_letter_witness :
    (runHandlerWithRetry 2 (fun _ => some "boom") "alerts.notification_dispatch.v1" [] "memory" "h" false 0).success = false ∧
    (runHandlerWithRetry 2 (fun _ => some "boom") "alerts.notification_dispatch.v1" [] "memory" "h" false 0).invocations = 2 + 1 ∧
    (runHandlerWithRetry 2 (fun _ => some "boom") "alerts.notification_dispatch.v1" [] "memory" "h" false 0).deadLetters.length = 1 ∧
    (runHandlerWithRetry 2 (fun _ => some "boom") "alerts.notification_dispatch.v1" [] "memory" "h" false 0).deadLetters.map DeadLetterRow.attempts = [2 + 1] ∧
    (runHandlerWithRetry 2 (fun _ => some "boom") "alerts.notification_dispatch.v1" [] "memory" "h" false 0).deadLetters.map DeadLetterRow.status = ["failed"] ∧
    (runHandlerWithRetry 2 (fun _ => some "boom") "alerts.notification_dispatch.v1" [] "memory" "h" false 0).deadLetters.map DeadLetterRow.retry_count = [0] :=
  c1_retry_exhaustion_single_dead_letter 2 (fun _ => some "boom") (fun _ => "boom")
    "alerts.notification_dispatch.v1" [] "memory" "h" false 0 (fun _ => rfl)

/-- Handlers are identified by Python object identity (`is`); the model
names them by a numeric identifier. -/
abbrev HandlerId := Nat

/-- The `self._handlers` dictionary: topic, in insertion order, to the
ordered list of registered handlers. -/
abbrev HandlerMap := List (String × List HandlerId)

/-- Lookup `self._handlers.get(topic, [])`. -/
def handlersFor (m : HandlerMap) (t : String) : List HandlerId :=
  match m.find? (fun p => p.1 == t) with
  | some p => p.2
  | none => []

/-- The mutation `self._handlers.setdefault(topic, []).append(handler)`. -/
def setdefaultAppend (m : HandlerMap) (t : String) (h : HandlerId) : HandlerMap :=
  match m with
  | [] => [(t, [h])]
  | (k, v) :: rest =>
    if k = t then (k, v ++ [h]) :: rest else (k, v) :: setdefaultAppend rest t h

/-- State of an `InMemoryEventBus`: subscription registry, running flag,
the bounded queue contents, and the queue capacity (`maxsize`). -/
structure MemBus where
  handlers : HandlerMap
  running : Bool
  queue : List Envelope
  capacity : Nat

/-- Embedding of `InMemoryEventBus.__init__(max_queue_size=...)`: empty
registry, not running, and `queue.Queue(maxsize=max(100, max_queue_size))`. -/
def memBusInit (maxQueueSize : Int) : MemBus :=
  { handlers := []
    running := false
    queue := []
    capacity := (max 100 maxQueueSize).toNat }

/-- Embedding of `InMemoryEventBus.start`: sets the running flag (the
worker thread it launches is modelled by `workerProcessOne` steps). -/
def memStart (bus : MemBus) : MemBus := { bus with running := true }

/-- Embedding of `InMemoryEventBus.subscribe`: strips the topic, raises
`ValueError` (the error case) when it is empty, otherwise appends the
handler to the list for that topic. -/
def memSubscribe (bus : MemBus) (topic : String) (h : HandlerId) : Except String MemBus :=
  let normalizedTopic := pyStrip topic
  if normalizedTopic = "" then .error "topic is required"
  else .ok { bus with handlers := setdefaultAppend bus.handlers normalizedTopic h }

/-- Embedding of `InMemoryEventBus.publish`: when not running, fail
without enqueueing; otherwise build an envelope and `put_nowait` it —
`queue.Full` (queue length at capacity) is caught and turned into a
failure return.  The function is total: no branch raises or blocks. -/
def memPublish (bus : MemBus) (topic : String) (payload : Payload)
    (key : Option String) (eventId now : Nat) : Bool × MemBus :=
  if !bus.running then (false, bus)
  else
    let envelope := buildEnvelope topic payload key eventId now
    if bus.capacity ≤ bus.queue.length then (false, bus)
    else (true, { bus with queue := bus.queue ++ [envelope] })

/-- When the bus is not running, `publish` fails and the state is
untouched. -/
theorem memPublish_not_running (bus : MemBus) (topic : String)
    (payload : Payload) (key : Option String) (eventId now : Nat)
    (hrun : bus.running = false) :
    memPublish bus topic payload key eventId now = (false, bus) := by
  simp [memPublish, hrun]

/-- When the bus is running but the bounded queue is at capacity,
`put_nowait` raises `queue.Full`, which `publish` catches: failure, state
untouched. -/
theorem memPublish_queue_full (bus : MemBus) (topic : String)
    (payload : Payload) (key : Option String) (eventId now : Nat)
    (hrun : bus.running = true) (hfull : bus.capacity ≤ bus.queue.length) :
    memPublish bus topic payload key eventId now = (false, bus) := by
  simp [memPublish, hrun, hfull]

/-- When the bus is running and the queue has room, `publish` enqueues
the envelope and succeeds. -/
theorem memPublish_enqueues (bus : MemBus) (topic : String)
    (payload : Payload) (key : Option String) (eventId now : Nat)
    (hrun : bus.running = true) (hroom : bus.queue.length < bus.capacity) :
    memPublish bus topic payload key eventId now =
      (true, { bus with queue := bus.queue ++ [buildEnvelope topic payload key eventId now] }) := by
  simp [memPublish, hrun, Nat.not_le_of_lt hroom]

/-- C4: the embedded backend publish returns the failure boolean, leaving
the queue untouched, when the bus is not running or the bounded queue is
full; otherwise it enqueues the envelope and returns success.  Absence of
blocking and of exceptions is captured by the embedding being a total
function on explicit state. -/
theorem c4_publish_failfast_cases (bus : MemBus) (topic : String)
    (payload : Payload) (key : Option String) (eventId now : Nat) :
    (bus.running = false →
      memPublish bus topic payload key eventId now = (false, bus)) ∧
    (bus.running = true → bus.capacity ≤ bus.queue.length →
      memPublish bus topic payload key eventId now = (false, bus)) ∧
    (bus.running = true → bus.queue.length < bus.capacity →
      memPublish bus topic payload key eventId now =
        (true, { bus with queue := bus.queue ++ [buildEnvelope topic payload key eventId now] })) :=
  ⟨memPublish_not_running bus topic payload key eventId now,
   memPublish_queue_full bus topic payload key eventId now,
   memPublish_enqueues bus topic payload key eventId now⟩

/-- Witness for C4: a stopped bus rejects, a running full bus rejects, a
running bus with room accepts. -/
theorem c4_publish_failfast_cases_witness :
    memPublish { handlers := [], running := false, queue := [], capacity := 100 } "t" [] none 0 0 =
      (false, { handlers := [], running := false, queue := [], capacity := 100 }) ∧
    memPublish { handlers := [], running := true, queue := [buildEnvelope "t" [] none 0 0], capacity := 1 } "t" [] none 1 1 =
      (false, { handlers := [], running := true, queue := [buildEnvelope "t" [] none 0 0], capacity := 1 }) ∧
    memPublish { handlers := [], running := true, queue := [], capacity := 100 } "t" [] none 0 0 =
      (true, { handlers := [], running := true, queue := [] ++ [buildEnvelope "t" [] none 0 0], capacity := 100 }) :=
  ⟨(c4_publish_failfast_cases { handlers := [], running := false, queue := [], capacity := 100 } "t" [] none 0 0).1 rfl,
   (c4_publish_failfast_cases { handlers := [], running := true, queue := [buildEnvelope "t" [] none 0 0], capacity := 1 } "t" [] none 1 1).2.1 rfl (by decide),
   (c4_publish_failfast_cases { handlers := [], running := true, queue := [], capacity := 100 } "t" [] none 0 0).2.2 rfl (by decide)⟩

/-- C10: the embedded queue is constructed with capacity
`max(100, max_queue_size)`, and with fewer than 100 envelopes queued a
publish on a running bus is never rejected for queue-full. -/
theorem c10_capacity_floor_100 (m : Int) (q : List Envelope) (topic : String)
    (payload : Payload) (key : Option String) (eventId now : Nat)
    (hlen : q.length < 100) :
    (memBusInit m).capacity = (max 100 m).toNat ∧
    (memPublish { memBusInit m with running := true, queue := q }
      topic payload key eventId now).1 = true := by
  constructor
  · rfl
  · have hcap : (100 : Nat) ≤ (max 100 m).toNat := by
      have h1 : (100 : Int) ≤ max 100 m := le_max_left 100 m
      omega
    have hroom : ({ memBusInit m with running := true, queue := q } : MemBus).queue.length <
        ({ memBusInit m with running := true, queue := q } : MemBus).capacity := by
      show q.length < (max 100 m).toNat
      omega
    rw [memPublish_enqueues _ _ _ _ _ _ rfl hroom]

/-- Witness for C10 at configured capacity `-7` (clamped to 100) and a
queue holding 99 envelopes: the 100th publish is accepted. -/
theorem c10_capacity_floor_100_witness :
    (memBusInit (-7)).capacity = (max 100 (-7 : Int)).toNat ∧
    (memPublish { memBusInit (-7) with running := true, queue := (List.range 99).map (fun i => buildEnvelope "t" [] none i 0) } "t" [] none 99 0).1 = true :=
  c10_capacity_floor_100 (-7) ((List.range 99).map (fun i => buildEnvelope "t" [] none i 0))
    "t" [] none 99 0 (by simp)

/-- A published envelope travels the queue as a plain Python dict; this is
that dict view of an `Envelope`. -/
def envelopeKVs (e : Envelope) : Payload :=
  [("event_id", .vint (Int.ofNat e.event_id)),
   ("topic", .vstr e.topic),
   ("key", match e.key with | some k => .vstr k | none => .vnone),
   ("produced_at", .vint (Int.ofNat e.produced_at)),
   ("payload", .vdict e.payload)]

/-- Embedding of `_extract_payload(value)`: for a dict, return its
`"payload"` entry when that is itself a dict, else the dict itself; for a
non-dict, return the empty dict. -/
def extractPayload (value : BVal) : Payload :=
  match value with
  | .vdict kvs =>
    match dictGet kvs "payload" with
    | some (.vdict p) => p
    | _ => kvs
  | _ => []

/-- Python `str(kvs.get(k) or "")`. -/
def pyGetStrOrEmpty (kvs : Payload) (k : String) : String :=
  pyStrOrEmpty ((dictGet kvs k).getD .vnone)

/-- Embedding of `InMemoryEventBus._dispatch`: run every handler
registered for the topic through the retry executor, in registration
order.  `behav` gives each handler its invocation behaviour; the handler
label `_handler_name(handler)` is modelled by the numeral of the id. -/
def memDispatch (m : HandlerMap) (topic : String) (payload : Payload)
    (behav : HandlerId → Handler) (retries : Nat) (auditEnabled : Bool)
    (now : Nat) : List (HandlerId × RunResult) :=
  (handlersFor m topic).map (fun h =>
    (h, runHandlerWithRetry retries (behav h) topic payload "memory" (toString h) auditEnabled now))

/-- One non-sentinel iteration of `InMemoryEventBus._worker_loop`: pop the
head envelope, read `str(item.get("topic") or "").strip()`, skip empty
topics, else dispatch `_extract_payload(item)` to the topic handlers. -/
def workerProcessOne (bus : MemBus) (behav : HandlerId → Handler)
    (retries : Nat) (auditEnabled : Bool) (now : Nat) :
    MemBus × List (HandlerId × RunResult) :=
  match bus.queue with
  | [] => (bus, [])
  | item :: rest =>
    let kvs := envelopeKVs item
    let topic := pyStrip (pyGetStrOrEmpty kvs "topic")
    if topic = "" then ({ bus with queue := rest }, [])
    else ({ bus with queue := rest },
      memDispatch bus.handlers topic (extractPayload (.vdict kvs)) behav retries auditEnabled now)

/-- Number of invocations handler `h` received in one dispatch round. -/
def invocationsOf (results : List (HandlerId × RunResult)) (h : HandlerId) : Nat :=
  (results.map (fun p => if p.1 == h then p.2.invocations else 0)).sum

/-- Facade state of the module-level singleton: the process-wide
subscription registry `_event_subscriptions` and the active backend (here
the embedded backend, the default). -/
structure Facade where
  subscriptions : List (String × HandlerId)
  bus : MemBus

/-- Embedding of `subscribe_event(topic, handler)`: record the pair in the
registry unless the identical pair is already present, then forward to the
active backend `subscribe` unconditionally.  The optional second component
is the `ValueError` that `subscribe` raises on an empty topic (the
registry mutation has already happened by then). -/
def subscribeEvent (st : Facade) (topic : String) (h : HandlerId) :
    Facade × Option String :=
  let existsPair := st.subscriptions.any (fun p => p.1 == topic && p.2 == h)
  let subs := if existsPair then st.subscriptions else st.subscriptions ++ [(topic, h)]
  match memSubscribe st.bus topic h with
  | .error e => ({ subscriptions := subs, bus := st.bus }, some e)
  | .ok b => ({ subscriptions := subs, bus := b }, none)

/-- C2, evaluated at the failing input: subscribing the identical pair
`("t", 7)` twice on a fresh facade and publishing one envelope to `"t"`
delivers the envelope to handler 7 twice, not once — `subscribe_event`
deduplicates only the fallback registry (which ends up holding the pair
once) but forwards both calls to the backend, whose `subscribe` appends
unconditionally.  The claim (and the spec invariant) says the handler is
invoked exactly once. -/
theorem c2_duplicate_subscribe_delivers_twice :
    invocationsOf (workerProcessOne (memPublish ((subscribeEvent ((subscribeEvent ⟨[], memStart (memBusInit 5000)⟩ "t" 7).1) "t" 7).1).bus "t" [] none 0 0).2 (fun _ _ => none) 2 false 0).2 7 = 2 ∧
    ((subscribeEvent ((subscribeEvent ⟨[], memStart (memBusInit 5000)⟩ "t" 7).1) "t" 7).1).subscriptions = [("t", 7)] := by
  decide

/-- State of a `KafkaEventBus`: its own registry and running flag, plus an
oracle `startFails` for whether broker client construction in `start()`
raises (external nondeterminism of the broker connection). -/
structure KafkaBus where
  handlers : HandlerMap
  running : Bool
  startFails : Bool

/-- The two interchangeable transports the facade can hold. -/
inductive Backend where
  | memory : MemBus → Backend
  | kafka : KafkaBus → Backend

/-- Backend `start()`: the embedded `start` only sets the running flag and
never raises; `KafkaEventBus.start` raises when client construction fails
(after cleaning up its partial state). -/
def backendStart : Backend → Except String Backend
  | .memory b => .ok (.memory (memStart b))
  | .kafka k =>
    if k.startFails then .error "kafka client construction failed"
    else .ok (.kafka { k with running := true })

/-- The `for topic, handler in subscriptions: fallback_bus.subscribe(...)`
loop of `start_event_bus`, threading the exception `subscribe` may raise. -/
def resubscribeAll (bus : MemBus) : List (String × HandlerId) → Except String MemBus
  | [] => .ok bus
  | (t, h) :: rest =>
    match memSubscribe bus t h with
    | .error e => .error e
    | .ok b => resubscribeAll b rest

/-- Embedding of `start_event_bus()`: try to start the active backend; on
failure build a fresh embedded backend from `EVENT_BUS_MEMORY_QUEUE_MAX`,
re-apply every recorded `(topic, handler)` subscription, and start it. -/
def startEventBus (subs : List (String × HandlerId)) (bus : Backend)
    (memQueueMax : Int) : Except String Backend :=
  match backendStart bus with
  | .ok b => .ok b
  | .error _ =>
    match resubscribeAll (memBusInit memQueueMax) subs with
    | .error e => .error e
    | .ok fb => .ok (.memory (memStart fb))

/-- Whether a backend value is the embedded one. -/
def backendIsMemory : Backend → Bool
  | .memory _ => true
  | .kafka _ => false

/-- Running flag of a backend. -/
def backendRunning : Backend → Bool
  | .memory b => b.running
  | .kafka k => k.running

/-- Whether handler `h` is subscribed to `t` on the backend. -/
def backendHasSubscription (b : Backend) (t : String) (h : HandlerId) : Bool :=
  match b with
  | .memory mb => (handlersFor mb.handlers t).contains h
  | .kafka k => (handlersFor k.handlers t).contains h

/-- Effect of the `setdefault(topic, []).append(handler)` mutation on
lookups: the list for `t` gains `h` at the end, every other topic is
unchanged. -/
theorem handlersFor_setdefaultAppend (m : HandlerMap) (t s : String) (h : HandlerId) :
    handlersFor (setdefaultAppend m t h) s =
      if s = t then handlersFor m s ++ [h] else handlersFor m s := by
  induction m with
  | nil =>
    by_cases hst : s = t
    · subst hst
      simp [setdefaultAppend, handlersFor]
    · simp [setdefaultAppend, handlersFor, hst, Ne.symm hst]
  | cons kv rest ih =>
    obtain ⟨k, v⟩ := kv
    by_cases hkt : k = t
    · subst hkt
      by_cases hst : s = k
      · subst hst
        simp [setdefaultAppend, handlersFor]
      · simp [setdefaultAppend, handlersFor, hst, Ne.symm hst]
    · by_cases hsk : s = k
      · subst hsk
        have hst : ¬ s = t := fun he => hkt (he ▸ rfl)
        simp [setdefaultAppend, handlersFor, hkt, hst]
      · simp only [setdefaultAppend, if_neg hkt]
        have hlhs : handlersFor ((k, v) :: setdefaultAppend rest t h) s =
            handlersFor (setdefaultAppend rest t h) s := by
          simp [handlersFor, Ne.symm hsk]
        have hrhs : handlersFor ((k, v) :: rest) s = handlersFor rest s := by
          simp [handlersFor, Ne.symm hsk]
        rw [hlhs, hrhs, ih]

/-- Running the re-subscription loop on topics that all strip to
non-empty succeeds, keeps every existing registration and adds one
registration per recorded pair, without touching the running flag. -/
theorem resubscribeAll_spec (subs : List (String × HandlerId)) :
    ∀ bus : MemBus, (∀ p ∈ subs, pyStrip p.1 ≠ "") →
      ∃ fb : MemBus, resubscribeAll bus subs = .ok fb ∧
        (∀ s hid, hid ∈ handlersFor bus.handlers s → hid ∈ handlersFor fb.handlers s) ∧
        (∀ p ∈ subs, p.2 ∈ handlersFor fb.handlers (pyStrip p.1)) ∧
        fb.running = bus.running := by
  induction subs with
  | nil =>
    intro bus _
    exact ⟨bus, rfl, fun s hid hm => hm, by simp, rfl⟩
  | cons p rest ih =>
    intro bus hok
    obtain ⟨t, h⟩ := p
    have ht : pyStrip t ≠ "" := hok (t, h) (List.mem_cons_self _ _)
    have hsub : memSubscribe bus t h =
        .ok { bus with handlers := setdefaultAppend bus.handlers (pyStrip t) h } := by
      simp [memSubscribe, ht]
    obtain ⟨fb, hres, hpres, hmem, hrun⟩ :=
      ih { bus with handlers := setdefaultAppend bus.handlers (pyStrip t) h }
        (fun q hq => hok q (List.mem_cons_of_mem _ hq))
    refine ⟨fb, ?_, ?_, ?_, hrun⟩
    · simp [resubscribeAll, hsub, hres]
    · intro s hid hm
      apply hpres
      rw [handlersFor_setdefaultAppend]
      by_cases hst : s = pyStrip t
      · rw [if_pos hst]
        exact List.mem_append_left _ hm
      · rw [if_neg hst]
        exact hm
    · intro q hq
      rcases List.mem_cons.mp hq with hq1 | hq2
      · subst hq1
        apply hpres
        rw [handlersFor_setdefaultAppend]
        simp
      · exact hmem q hq2

/-- C5: when the configured backend fails to start, `start_event_bus`
builds a fresh embedded backend, re-applies every recorded
`(topic, handler)` subscription onto it, and starts it: the result is a
running embedded backend on which every previously recorded handler is
subscribed (under its normalized topic).  The topics are required to strip
to non-empty, which holds of every pair the facade accepted. -/
theorem c5_fallback_preserves_subscriptions (subs : List (String × HandlerId))
    (k : KafkaBus) (m : Int) (t : String) (h : HandlerId)
    (hfail : k.startFails = true)
    (hok : ∀ p ∈ subs, pyStrip p.1 ≠ "")
    (hmem : (t, h) ∈ subs) :
    (startEventBus subs (.kafka k) m).map backendIsMemory = .ok true ∧
    (startEventBus subs (.kafka k) m).map backendRunning = .ok true ∧
    (startEventBus subs (.kafka k) m).map (fun b => backendHasSubscription b (pyStrip t) h) = .ok true := by
  obtain ⟨fb, hres, hpres, hmem2, hrun⟩ := resubscribeAll_spec subs (memBusInit m) hok
  have hs : startEventBus subs (.kafka k) m = .ok (.memory (memStart fb)) := by
    simp [startEventBus, backendStart, hfail, hres]
  have hin : h ∈ handlersFor fb.handlers (pyStrip t) := hmem2 (t, h) hmem
  refine ⟨?_, ?_, ?_⟩ <;>
    rw [hs] <;>
    simp [Except.map, backendIsMemory, backendRunning, backendHasSubscription, memStart, hin]

/-- Witness for C5: two recorded subscriptions, a kafka backend whose
start fails; after the fallback the backend is embedded, running, and
handler 1 is subscribed to topic `"a"`. -/
theorem c5_fallback_preserves_subscriptions_witness :
    (startEventBus [("a", 1), ("b", 2)] (.kafka { handlers := [], running := false, startFails := true }) 5000).map backendIsMemory = .ok true ∧
    (startEventBus [("a", 1), ("b", 2)] (.kafka { handlers := [], running := false, startFails := true }) 5000).map backendRunning = .ok true ∧
    (startEventBus [("a", 1), ("b", 2)] (.kafka { handlers := [], running := false, startFails := true }) 5000).map (fun b => backendHasSubscription b (pyStrip "a") 1) = .ok true :=
  c5_fallback_preserves_subscriptions [("a", 1), ("b", 2)]
    { handlers := [], running := false, startFails := true } 5000 "a" 1 rfl
    (by decide) (by decide)

/-- A document of the `event_bus_dead_letters` collection, with the fields
the replay code reads or writes.  `topic` and `payload` are dynamic values
because a stored document may be malformed; `_id` stands for the ObjectId. -/
structure DLDoc where
  _id : Nat
  topic : BVal
  payload : BVal
  status : String
  retry_count : Nat
  error : String
  created_at : Nat
  updated_at : Nat
  last_retry_at : Option Nat

/-- Mongo `update_one({"_id": oid}, ...)` on the collection: apply `f` to
the first document whose `_id` matches; no match leaves the list alone. -/
def updateFirst (store : List DLDoc) (oid : Nat) (f : DLDoc → DLDoc) : List DLDoc :=
  match store with
  | [] => []
  | d :: rest => if d._id == oid then f d :: rest else d :: updateFirst rest oid f

/-- The `$set`/`$inc` update `retry_event_bus_dead_letter` applies on its
invalid branch: status `retry_failed`, `updated_at`, the fixed error
message, and `retry_count` incremented. -/
def invalidUpdate (now : Nat) (d : DLDoc) : DLDoc :=
  { d with status := "retry_failed", updated_at := now,
           error := "dead_letter_payload_invalid",
           retry_count := d.retry_count + 1 }

/-- The `$set`/`$inc` update `retry_event_bus_dead_letter` applies after a
publish attempt: status from the publish result, both timestamps, and
`retry_count` incremented. -/
def replayUpdate (published : Bool) (now : Nat) (d : DLDoc) : DLDoc :=
  { d with status := if published then "republished" else "retry_failed",
           updated_at := now, last_retry_at := some now,
           retry_count := d.retry_count + 1 }

/-- Result of one `retry_event_bus_dead_letter` call: the returned
`{"ok": ..., "reason": ...}` record, the collection after its updates, and
the publish attempts made through `publish_event`. -/
structure ReplayOutcome where
  ok : Bool
  reason : String
  store : List DLDoc
  publishes : List (String × Payload × Option String)

/-- The `key = str(payload.get("user_email") or "").strip() or None`
line of `retry_event_bus_dead_letter`. -/
def userEmailKey (kvs : Payload) : Option String :=
  let keyRaw := pyStrip (pyGetStrOrEmpty kvs "user_email")
  if keyRaw = "" then none else some keyRaw

/-- Embedding of `retry_event_bus_dead_letter(dead_letter_id)`.
`deadLetterId = none` models a string rejected by the `ObjectId`
constructor; `pub` is the behaviour of `publish_event` on the current
active backend.  Note the source coerces a non-dict stored payload to
`{}` before testing it, so the `isinstance(payload, dict)` disjunct of the
invalid branch is decided on the coerced value and is always true (the
`payloadIsDict` binding below): the invalid branch fires exactly when the
normalized topic is empty. -/
def retryEventBusDeadLetter (pub : String → Payload → Option String → Bool)
    (now : Nat) (store : List DLDoc) (deadLetterId : Option Nat) : ReplayOutcome :=
  match deadLetterId with
  | none => { ok := false, reason := "invalid_dead_letter_id", store := store, publishes := [] }
  | some oid =>
    match store.find? (fun d => d._id == oid) with
    | none => { ok := false, reason := "dead_letter_not_found", store := store, publishes := [] }
    | some doc =>
      let topic := pyStrip (pyStrOrEmpty doc.topic)
      let payload : Payload := match doc.payload with
        | .vdict kvs => kvs
        | _ => []
      let payloadIsDict := true
      if topic = "" || !payloadIsDict then
        { ok := false
          reason := "dead_letter_payload_invalid"
          store := updateFirst store oid (invalidUpdate now)
          publishes := [] }
      else
        let key := userEmailKey payload
        let published := pub topic payload key
        { ok := published
          reason := if published then "republished" else "publish_failed"
          store := updateFirst store oid (replayUpdate published now)
          publishes := [(topic, payload, key)] }

/-- Looking up the updated `_id` after `update_one`: the found document is
the updated one, provided the update keeps `_id`. -/
theorem find?_updateFirst (store : List DLDoc) (oid : Nat) (f : DLDoc → DLDoc)
    (hf : ∀ d, (f d)._id = d._id) (doc : DLDoc)
    (hfind : store.find? (fun d => d._id == oid) = some doc) :
    (updateFirst store oid f).find? (fun d => d._id == oid) = some (f doc) := by
  induction store with
  | nil => simp [List.find?] at hfind
  | cons d rest ih =>
    cases hdbeq : (d._id == oid) with
    | true =>
      have hdoc : doc = d := by
        rw [List.find?_cons, hdbeq] at hfind
        exact (Option.some_inj.mp hfind).symm
      subst hdoc
      have hbeq2 : ((f doc)._id == oid) = true := by
        rw [beq_iff_eq] at hdbeq ⊢
        rw [hf]
        exact hdbeq
      simp only [updateFirst, hdbeq, if_true]
      rw [List.find?_cons, hbeq2]
    | false =>
      rw [List.find?_cons, hdbeq] at hfind
      simp only [updateFirst, hdbeq, Bool.false_eq_true, if_false]
      rw [List.find?_cons, hdbeq]
      exact ih hfind

/-- A document whose `_id` is not the updated one stays in the collection
untouched. -/
theorem mem_updateFirst_of_ne (store : List DLDoc) (oid : Nat) (f : DLDoc → DLDoc)
    (d : DLDoc) (hd : d ∈ store) (hne : d._id ≠ oid) : d ∈ updateFirst store oid f := by
  induction store with
  | nil => cases hd
  | cons x rest ih =>
    rcases List.mem_cons.mp hd with rfl | hd2
    · have hbeq : (d._id == oid) = false := by simp [hne]
      simp [updateFirst, hbeq]
    · cases hx : (x._id == oid) with
      | true =>
        simp only [updateFirst, hx, if_true]
        exact List.mem_cons_of_mem _ hd2
      | false =>
        simp only [updateFirst, hx, Bool.false_eq_true, if_false]
        exact List.mem_cons_of_mem _ (ih hd2)

/-- A dead-letter document with a valid topic but a malformed (non-dict)
stored payload. -/
def c3Doc : DLDoc :=
  { _id := 1, topic := .vstr "t", payload := .vstr "junk", status := "failed",
    retry_count := 0, error := "boom", created_at := 0, updated_at := 0,
    last_retry_at := none }

/-- C3 counterexample: replaying the record `c3Doc`, whose stored payload
is malformed (a string, not a dict) but whose topic is valid, the claim
says the record is marked `retry_failed` and no publish is attempted.  The
code instead coerces the payload to the empty dict, attempts exactly one
publish through the active backend, and (the publish succeeding) marks the
record `republished` and reports success. -/
theorem c3_malformed_payload_still_publishes :
    (retryEventBusDeadLetter (fun _ _ _ => true) 5 [c3Doc] (some 1)).publishes.length = 1 ∧
    (retryEventBusDeadLetter (fun _ _ _ => true) 5 [c3Doc] (some 1)).ok = true ∧
    (retryEventBusDeadLetter (fun _ _ _ => true) 5 [c3Doc] (some 1)).reason = "republished" ∧
    (((retryEventBusDeadLetter (fun _ _ _ => true) 5 [c3Doc] (some 1)).store.find?
        (fun d => d._id == 1)).map DLDoc.status) = some "republished" := by
  decide

/-- C3 as amended: `retry_event_bus_dead_letter` marks the record
`retry_failed` (incrementing `retry_count`, recording the error) and
returns failure without any publish attempt exactly when the stored topic
normalizes to empty; a malformed (non-dict) stored payload with a valid
topic is coerced to the empty dict and a publish is still attempted with
that empty payload. -/
theorem c3_amended_empty_topic_fails_without_publish
    (pub : String → Payload → Option String → Bool) (now : Nat)
    (store : List DLDoc) (oid : Nat) (doc : DLDoc)
    (hfind : store.find? (fun d => d._id == oid) = some doc) :
    (pyStrip (pyStrOrEmpty doc.topic) = "" →
      (retryEventBusDeadLetter pub now store (some oid)).ok = false ∧
      (retryEventBusDeadLetter pub now store (some oid)).reason = "dead_letter_payload_invalid" ∧
      (retryEventBusDeadLetter pub now store (some oid)).publishes = [] ∧
      (((retryEventBusDeadLetter pub now store (some oid)).store.find?
          (fun d => d._id == oid)).map DLDoc.status) = some "retry_failed" ∧
      (((retryEventBusDeadLetter pub now store (some oid)).store.find?
          (fun d => d._id == oid)).map DLDoc.retry_count) = some (doc.retry_count + 1)) ∧
    (pyStrip (pyStrOrEmpty doc.topic) ≠ "" → (∀ kvs, doc.payload ≠ BVal.vdict kvs) →
      (retryEventBusDeadLetter pub now store (some oid)).publishes =
        [(pyStrip (pyStrOrEmpty doc.topic), [], userEmailKey [])]) := by
  constructor
  · intro htopic
    have hmain : retryEventBusDeadLetter pub now store (some oid) =
        { ok := false
          reason := "dead_letter_payload_invalid"
          store := updateFirst store oid (invalidUpdate now)
          publishes := [] } := by
      simp only [retryEventBusDeadLetter]
      rw [hfind]
      simp [htopic]
    rw [hmain]
    refine ⟨rfl, rfl, rfl, ?_, ?_⟩ <;>
      rw [show (({ ok := false, reason := "dead_letter_payload_invalid", store := updateFirst store oid (invalidUpdate now), publishes := [] } : ReplayOutcome)).store = updateFirst store oid (invalidUpdate now) from rfl,
        find?_updateFirst store oid (invalidUpdate now) (fun d => rfl) doc hfind] <;>
      simp [invalidUpdate]
  · intro htopic hnd
    have hpay : (match doc.payload with
        | BVal.vdict kvs => kvs
        | _ => ([] : Payload)) = [] := by
      cases hv : doc.payload with
      | vdict kvs => exact absurd hv (hnd kvs)
      | vnone => rfl
      | vstr a => rfl
      | vint a => rfl
    have hmain : retryEventBusDeadLetter pub now store (some oid) =
        { ok := pub (pyStrip (pyStrOrEmpty doc.topic)) [] (userEmailKey [])
          reason := if pub (pyStrip (pyStrOrEmpty doc.topic)) [] (userEmailKey []) then "republished" else "publish_failed"
          store := updateFirst store oid (replayUpdate (pub (pyStrip (pyStrOrEmpty doc.topic)) [] (userEmailKey [])) now)
          publishes := [(pyStrip (pyStrOrEmpty doc.topic), [], userEmailKey [])] } := by
      simp only [retryEventBusDeadLetter]
      rw [hfind]
      simp [htopic, hpay]
    rw [hmain]

/-- Witness for the amended C3 at a record whose stored topic is absent:
the replay fails with `dead_letter_payload_invalid`, publishes nothing,
and the record is marked `retry_failed` with `retry_count` bumped to 1. -/
theorem c3_amended_empty_topic_fails_without_publish_witness :
    (retryEventBusDeadLetter (fun _ _ _ => true) 5 [{ _id := 2, topic := BVal.vnone, payload := BVal.vdict [], status := "failed", retry_count := 0, error := "x", created_at := 0, updated_at := 0, last_retry_at := none }] (some 2)).ok = false ∧
    (retryEventBusDeadLetter (fun _ _ _ => true) 5 [{ _id := 2, topic := BVal.vnone, payload := BVal.vdict [], status := "failed", retry_count := 0, error := "x", created_at := 0, updated_at := 0, last_retry_at := none }] (some 2)).reason = "dead_letter_payload_invalid" ∧
    (retryEventBusDeadLetter (fun _ _ _ => true) 5 [{ _id := 2, topic := BVal.vnone, payload := BVal.vdict [], status := "failed", retry_count := 0, error := "x", created_at := 0, updated_at := 0, last_retry_at := none }] (some 2)).publishes = [] ∧
    (((retryEventBusDeadLetter (fun _ _ _ => true) 5 [{ _id := 2, topic := BVal.vnone, payload := BVal.vdict [], status := "failed", retry_count := 0, error := "x", created_at := 0, updated_at := 0, last_retry_at := none }] (some 2)).store.find? (fun d => d._id == 2)).map DLDoc.status) = some "retry_failed" ∧
    (((retryEventBusDeadLetter (fun _ _ _ => true) 5 [{ _id := 2, topic := BVal.vnone, payload := BVal.vdict [], status := "failed", retry_count := 0, error := "x", created_at := 0, updated_at := 0, last_retry_at := none }] (some 2)).store.find? (fun d => d._id == 2)).map DLDoc.retry_count) = some (0 + 1) :=
  (c3_amended_empty_topic_fails_without_publish (fun _ _ _ => true) 5
    [{ _id := 2, topic := BVal.vnone, payload := BVal.vdict [], status := "failed", retry_count := 0, error := "x", created_at := 0, updated_at := 0, last_retry_at := none }]
    2 { _id := 2, topic := BVal.vnone, payload := BVal.vdict [], status := "failed", retry_count := 0, error := "x", created_at := 0, updated_at := 0, last_retry_at := none }
    rfl).1 rfl

/-- C6: replaying a record with a valid topic and a well-formed payload
republishes through the active backend with the payload and the
`user_email` correlation key; on publish success the record becomes
`republished`, on failure `retry_failed`, and in both cases `retry_count`
increments by exactly 1 while `updated_at` and `last_retry_at` are set to
the replay time. -/
theorem c6_replay_valid_record_state_machine
    (pub : String → Payload → Option String → Bool) (now : Nat)
    (store : List DLDoc) (oid : Nat) (doc : DLDoc) (kvs : Payload)
    (hfind : store.find? (fun d => d._id == oid) = some doc)
    (hpay : doc.payload = BVal.vdict kvs)
    (htopic : pyStrip (pyStrOrEmpty doc.topic) ≠ "") :
    (retryEventBusDeadLetter pub now store (some oid)).ok =
      pub (pyStrip (pyStrOrEmpty doc.topic)) kvs (userEmailKey kvs) ∧
    (retryEventBusDeadLetter pub now store (some oid)).publishes =
      [(pyStrip (pyStrOrEmpty doc.topic), kvs, userEmailKey kvs)] ∧
    (((retryEventBusDeadLetter pub now store (some oid)).store.find?
        (fun d => d._id == oid)).map DLDoc.status) =
      some (if pub (pyStrip (pyStrOrEmpty doc.topic)) kvs (userEmailKey kvs) then "republished" else "retry_failed") ∧
    (((retryEventBusDeadLetter pub now store (some oid)).store.find?
        (fun d => d._id == oid)).map DLDoc.retry_count) = some (doc.retry_count + 1) ∧
    (((retryEventBusDeadLetter pub now store (some oid)).store.find?
        (fun d => d._id == oid)).map DLDoc.updated_at) = some now ∧
    (((retryEventBusDeadLetter pub now store (some oid)).store.find?
        (fun d => d._id == oid)).map DLDoc.last_retry_at) = some (some now) := by
  have hmain : retryEventBusDeadLetter pub now store (some oid) =
      { ok := pub (pyStrip (pyStrOrEmpty doc.topic)) kvs (userEmailKey kvs)
        reason := if pub (pyStrip (pyStrOrEmpty doc.topic)) kvs (userEmailKey kvs) then "republished" else "publish_failed"
        store := updateFirst store oid (replayUpdate (pub (pyStrip (pyStrOrEmpty doc.topic)) kvs (userEmailKey kvs)) now)
        publishes := [(pyStrip (pyStrOrEmpty doc.topic), kvs, userEmailKey kvs)] } := by
    simp only [retryEventBusDeadLetter]
    rw [hfind]
    simp [htopic, hpay]
  rw [hmain]
  refine ⟨rfl, rfl, ?_, ?_, ?_, ?_⟩ <;>
    rw [show (({ ok := pub (pyStrip (pyStrOrEmpty doc.topic)) kvs (userEmailKey kvs), reason := if pub (pyStrip (pyStrOrEmpty doc.topic)) kvs (userEmailKey kvs) then "republished" else "publish_failed", store := updateFirst store oid (replayUpdate (pub (pyStrip (pyStrOrEmpty doc.topic)) kvs (userEmailKey kvs)) now), publishes := [(pyStrip (pyStrOrEmpty doc.topic), kvs, userEmailKey kvs)] } : ReplayOutcome)).store = updateFirst store oid (replayUpdate (pub (pyStrip (pyStrOrEmpty doc.topic)) kvs (userEmailKey kvs)) now) from rfl,
      find?_updateFirst store oid (replayUpdate (pub (pyStrip (pyStrOrEmpty doc.topic)) kvs (userEmailKey kvs)) now) (fun d => rfl) doc hfind] <;>
    simp [replayUpdate]

/-- Witness for C6 on a valid record whose republish fails: the record
moves to `retry_failed` with `retry_count` 1 and both timestamps set. -/
theorem c6_replay_valid_record_state_machine_witness :
    (retryEventBusDeadLetter (fun _ _ _ => false) 9 [c3Doc, { c3Doc with _id := 3, payload := BVal.vdict [("user_email", BVal.vstr "a@b.c")] }] (some 3)).ok = (fun _ _ _ => false) (pyStrip (pyStrOrEmpty c3Doc.topic)) [("user_email", BVal.vstr "a@b.c")] (userEmailKey [("user_email", BVal.vstr "a@b.c")]) ∧
    (retryEventBusDeadLetter (fun _ _ _ => false) 9 [c3Doc, { c3Doc with _id := 3, payload := BVal.vdict [("user_email", BVal.vstr "a@b.c")] }] (some 3)).publishes = [(pyStrip (pyStrOrEmpty c3Doc.topic), [("user_email", BVal.vstr "a@b.c")], userEmailKey [("user_email", BVal.vstr "a@b.c")])] ∧
    (((retryEventBusDeadLetter (fun _ _ _ => false) 9 [c3Doc, { c3Doc with _id := 3, payload := BVal.vdict [("user_email", BVal.vstr "a@b.c")] }] (some 3)).store.find? (fun d => d._id == 3)).map DLDoc.status) = some (if (fun _ _ _ => false) (pyStrip (pyStrOrEmpty c3Doc.topic)) [("user_email", BVal.vstr "a@b.c")] (userEmailKey [("user_email", BVal.vstr "a@b.c")]) then "republished" else "retry_failed") ∧
    (((retryEventBusDeadLetter (fun _ _ _ => false) 9 [c3Doc, { c3Doc with _id := 3, payload := BVal.vdict [("user_email", BVal.vstr "a@b.c")] }] (some 3)).store.find? (fun d => d._id == 3)).map DLDoc.retry_count) = some (c3Doc.retry_count + 1) ∧
    (((retryEventBusDeadLetter (fun _ _ _ => false) 9 [c3Doc, { c3Doc with _id := 3, payload := BVal.vdict [("user_email", BVal.vstr "a@b.c")] }] (some 3)).store.find? (fun d => d._id == 3)).map DLDoc.updated_at) = some 9 ∧
    (((retryEventBusDeadLetter (fun _ _ _ => false) 9 [c3Doc, { c3Doc with _id := 3, payload := BVal.vdict [("user_email", BVal.vstr "a@b.c")] }] (some 3)).store.find? (fun d => d._id == 3)).map DLDoc.last_retry_at) = some (some 9) :=
  c6_replay_valid_record_state_machine (fun _ _ _ => false) 9
    [c3Doc, { c3Doc with _id := 3, payload := BVal.vdict [("user_email", BVal.vstr "a@b.c")] }]
    3 { c3Doc with _id := 3, payload := BVal.vdict [("user_email", BVal.vstr "a@b.c")] }
    [("user_email", BVal.vstr "a@b.c")] rfl rfl (by decide)

/-- Counts returned by `retry_failed_event_bus_dead_letters`. -/
structure BatchCounts where
  attempted : Nat
  republished : Nat
  retry_failed : Nat
  deriving DecidableEq, Repr

/-- The status filter of the batch endpoint: `["failed"]`, plus
`"retry_failed"` when `include_retry_failed` is set. -/
def batchStatuses (includeRetryFailed : Bool) : List String :=
  ["failed"] ++ (if includeRetryFailed then ["retry_failed"] else [])

/-- The `find({"status": {"$in": statuses}}).sort("created_at", 1)
.limit(fetch_limit)` selection, with `fetch_limit = max(1, min(500,
limit))`.  The store sort is modelled as a stable sort on `created_at`. -/
def selectDeadLetters (store : List DLDoc) (limit : Int)
    (includeRetryFailed : Bool) : List DLDoc :=
  let fetchLimit := (max 1 (min 500 limit)).toNat
  ((store.filter (fun d => decide (d.status ∈ batchStatuses includeRetryFailed))).mergeSort
    (fun a b => decide (a.created_at ≤ b.created_at))).take fetchLimit

/-- The counting loop of the batch endpoint: replay each pre-fetched id
via `retry_event_bus_dead_letter` on the evolving store, counting every
iteration in `attempted` and its outcome in `republished`/`retry_failed`. -/
def replayBatchLoop (pub : String → Payload → Option String → Bool) (now : Nat) :
    List Nat → List DLDoc → BatchCounts × List DLDoc
  | [], store => ({ attempted := 0, republished := 0, retry_failed := 0 }, store)
  | oid :: rest, store =>
    let r := retryEventBusDeadLetter pub now store (some oid)
    let next := replayBatchLoop pub now rest r.store
    ({ attempted := next.1.attempted + 1
       republished := next.1.republished + (if r.ok then 1 else 0)
       retry_failed := next.1.retry_failed + (if r.ok then 0 else 1) }, next.2)

/-- Embedding of `retry_failed_event_bus_dead_letters(limit=...,
include_retry_failed=...)`: select, then replay each selected id. -/
def retryFailedEventBusDeadLetters (pub : String → Payload → Option String → Bool)
    (now : Nat) (store : List DLDoc) (limit : Int) (includeRetryFailed : Bool) :
    BatchCounts × List DLDoc :=
  replayBatchLoop pub now
    ((selectDeadLetters store limit includeRetryFailed).map (fun d => d._id)) store

/-- The batch loop attempts exactly one replay per selected id, and every
attempt lands in exactly one of the two outcome counters. -/
theorem replayBatchLoop_counts (pub : String → Payload → Option String → Bool)
    (now : Nat) :
    ∀ ids store,
      (replayBatchLoop pub now ids store).1.attempted = ids.length ∧
      (replayBatchLoop pub now ids store).1.attempted =
        (replayBatchLoop pub now ids store).1.republished +
          (replayBatchLoop pub now ids store).1.retry_failed := by
  intro ids
  induction ids with
  | nil =>
    intro store
    simp [replayBatchLoop]
  | cons oid rest ih =>
    intro store
    have h := ih (retryEventBusDeadLetter pub now store (some oid)).store
    cases hok : (retryEventBusDeadLetter pub now store (some oid)).ok with
    | true =>
      simp only [replayBatchLoop, hok, List.length_cons, if_true]
      omega
    | false =>
      simp only [replayBatchLoop, hok, List.length_cons, Bool.false_eq_true, if_false]
      omega

/-- One replay call only ever rewrites the document whose `_id` it was
given: every other document stays in the store. -/
theorem mem_replay_store_of_ne (pub : String → Payload → Option String → Bool)
    (now : Nat) (store : List DLDoc) (oid : Nat) (d : DLDoc)
    (hd : d ∈ store) (hne : d._id ≠ oid) :
    d ∈ (retryEventBusDeadLetter pub now store (some oid)).store := by
  simp only [retryEventBusDeadLetter]
  cases hf : store.find? (fun x => x._id == oid) with
  | none => simpa using hd
  | some doc =>
    dsimp only
    split
    · exact mem_updateFirst_of_ne store oid _ d hd hne
    · exact mem_updateFirst_of_ne store oid _ d hd hne

/-- A document none of whose ids are targeted by the batch loop is still
in the store after the whole batch. -/
theorem mem_batch_store_of_not_targeted (pub : String → Payload → Option String → Bool)
    (now : Nat) :
    ∀ ids store (d : DLDoc), d ∈ store → (∀ oid ∈ ids, d._id ≠ oid) →
      d ∈ (replayBatchLoop pub now ids store).2 := by
  intro ids
  induction ids with
  | nil =>
    intro store d hd _
    simpa [replayBatchLoop] using hd
  | cons oid rest ih =>
    intro store d hd hne
    simp only [replayBatchLoop]
    exact ih _ d
      (mem_replay_store_of_ne pub now store oid d hd (hne oid (List.mem_cons_self _ _)))
      (fun o ho => hne o (List.mem_cons_of_mem _ ho))

/-- Every selected document comes from the store and carries one of the
statuses of the batch filter. -/
theorem selectDeadLetters_subset (store : List DLDoc) (limit : Int)
    (includeRetryFailed : Bool) :
    ∀ d ∈ selectDeadLetters store limit includeRetryFailed,
      d ∈ store ∧ d.status ∈ batchStatuses includeRetryFailed := by
  intro d hd
  simp only [selectDeadLetters] at hd
  have h1 : d ∈ (store.filter (fun d => decide (d.status ∈ batchStatuses includeRetryFailed))).mergeSort
      (fun a b => decide (a.created_at ≤ b.created_at)) :=
    List.take_subset _ _ hd
  have h2 : d ∈ store.filter (fun d => decide (d.status ∈ batchStatuses includeRetryFailed)) :=
    (List.mergeSort_perm _ _).mem_iff.mp h1
  have h3 := List.mem_filter.mp h2
  exact ⟨h3.1, of_decide_eq_true h3.2⟩

/-- C7: the batch replay selects at most `max(1, min(500, limit))`
records, ordered oldest-first (`created_at` ascending), all with status
`failed` or — only when included — `retry_failed`; it replays each via
`retry_event_bus_dead_letter`, returns counts satisfying
`attempted = republished + retry_failed`, and (with distinct ids in the
store) every record whose status is outside the filter — `republished`
always, `retry_failed` when not included — is never attempted and is left
in the store unchanged. -/
theorem c7_batch_replay_filter_and_counts (pub : String → Payload → Option String → Bool)
    (now : Nat) (store : List DLDoc) (limit : Int) (includeRetryFailed : Bool) :
    (retryFailedEventBusDeadLetters pub now store limit includeRetryFailed).1.attempted =
      (retryFailedEventBusDeadLetters pub now store limit includeRetryFailed).1.republished +
        (retryFailedEventBusDeadLetters pub now store limit includeRetryFailed).1.retry_failed ∧
    (retryFailedEventBusDeadLetters pub now store limit includeRetryFailed).1.attempted ≤
      (max 1 (min 500 limit)).toNat ∧
    List.Pairwise (fun a b => a.created_at ≤ b.created_at)
      (selectDeadLetters store limit includeRetryFailed) ∧
    (∀ d ∈ selectDeadLetters store limit includeRetryFailed,
      d.status ∈ batchStatuses includeRetryFailed) ∧
    ((store.map (fun d => d._id)).Nodup →
      ∀ d ∈ store, d.status ∉ batchStatuses includeRetryFailed →
        d ∈ (retryFailedEventBusDeadLetters pub now store limit includeRetryFailed).2) := by
  refine ⟨?_, ?_, ?_, ?_, ?_⟩
  · exact (replayBatchLoop_counts pub now _ store).2
  · have h := (replayBatchLoop_counts pub now
      ((selectDeadLetters store limit includeRetryFailed).map (fun d => d._id)) store).1
    rw [retryFailedEventBusDeadLetters, h, List.length_map]
    simp only [selectDeadLetters]
    rw [List.length_take]
    exact min_le_left _ _
  · have htrans : ∀ a b c : DLDoc, decide (a.created_at ≤ b.created_at) = true →
        decide (b.created_at ≤ c.created_at) = true →
        decide (a.created_at ≤ c.created_at) = true := by
      intro a b c hab hbc
      simp only [decide_eq_true_eq] at hab hbc ⊢
      omega
    have htotal : ∀ a b : DLDoc, (decide (a.created_at ≤ b.created_at) ||
        decide (b.created_at ≤ a.created_at)) = true := by
      intro a b
      simp only [Bool.or_eq_true, decide_eq_true_eq]
      omega
    have hsorted := List.sorted_mergeSort htrans htotal
      (store.filter (fun d => decide (d.status ∈ batchStatuses includeRetryFailed)))
    have htake := List.Pairwise.sublist
      (List.take_sublist ((max 1 (min 500 limit)).toNat)
        ((store.filter (fun d => decide (d.status ∈ batchStatuses includeRetryFailed))).mergeSort
          (fun a b => decide (a.created_at ≤ b.created_at)))) hsorted
    simp only [selectDeadLetters]
    exact htake.imp (fun h => of_decide_eq_true h)
  · exact fun d hd => (selectDeadLetters_subset store limit includeRetryFailed d hd).2
  · intro hnodup d hd hstat
    apply mem_batch_store_of_not_targeted pub now _ store d hd
    intro oid ho hexact
    rcases List.mem_map.mp ho with ⟨e, he, heid⟩
    have hes := selectDeadLetters_subset store limit includeRetryFailed e he
    have hde : d = e := List.inj_on_of_nodup_map hnodup hd hes.1 (by rw [hexact, heid])
    rw [hde] at hstat
    exact hstat hes.2

/-- A `failed` record, oldest. -/
def c7DocA : DLDoc :=
  { _id := 10, topic := .vstr "t", payload := .vdict [], status := "failed",
    retry_count := 0, error := "e", created_at := 0, updated_at := 0,
    last_retry_at := none }

/-- A `retry_failed` record. -/
def c7DocB : DLDoc := { c7DocA with _id := 11, status := "retry_failed", created_at := 1 }

/-- A `republished` record, newest. -/
def c7DocC : DLDoc := { c7DocA with _id := 12, status := "republished", created_at := 2 }

/-- The mixed-status store of the C7 witness. -/
def c7Store : List DLDoc := [c7DocA, c7DocB, c7DocC]

/-- Witness for C7 on a store holding one `failed`, one `retry_failed` and
one `republished` record, with `include_retry_failed = false`: the counts
balance, at most the clamped limit is attempted, and both the
`retry_failed` and the `republished` record survive the batch untouched. -/
theorem c7_batch_replay_filter_and_counts_witness :
    (retryFailedEventBusDeadLetters (fun _ _ _ => true) 4 c7Store 10 false).1.attempted =
      (retryFailedEventBusDeadLetters (fun _ _ _ => true) 4 c7Store 10 false).1.republished +
        (retryFailedEventBusDeadLetters (fun _ _ _ => true) 4 c7Store 10 false).1.retry_failed ∧
    (retryFailedEventBusDeadLetters (fun _ _ _ => true) 4 c7Store 10 false).1.attempted ≤
      (max 1 (min 500 (10 : Int))).toNat ∧
    c7DocB ∈ (retryFailedEventBusDeadLetters (fun _ _ _ => true) 4 c7Store 10 false).2 ∧
    c7DocC ∈ (retryFailedEventBusDeadLetters (fun _ _ _ => true) 4 c7Store 10 false).2 :=
  have h := c7_batch_replay_filter_and_counts (fun _ _ _ => true) 4 c7Store 10 false
  ⟨h.1, h.2.1,
   h.2.2.2.2 (by decide) c7DocB (List.mem_cons_of_mem _ (List.mem_cons_self _ _)) (by decide),
   h.2.2.2.2 (by decide) c7DocC
     (List.mem_cons_of_mem _ (List.mem_cons_of_mem _ (List.mem_cons_self _ _))) (by decide)⟩

/-- C8 counterexample: the claim says `_build_envelope` raises a
configuration error on an empty topic.  The function body is a single dict
literal with no validation: called with the empty topic it completes
normally and returns an ordinary envelope whose `topic` field is the empty
string (the only empty-topic rejection in the module is the `ValueError`
in `subscribe`). -/
theorem c8_empty_topic_builds_envelope :
    buildEnvelope "" [] none 0 7 =
      { event_id := 0, topic := "", key := none, produced_at := 7, payload := [] } :=
  rfl

/-- C8 as amended: `_build_envelope` performs no topic validation — any
topic, the empty one included, is stored in the envelope as given — and
every call draws a fresh `event_id` from the uuid source, so two calls
with identical arguments (under successive draws) produce envelopes with
distinct `event_id`. -/
theorem c8_amended_no_validation_fresh_event_id (topic : String)
    (payload : Payload) (key : Option String) (s now : Nat) :
    (buildEnvelope topic payload key (uuidNext s).1 now).topic = topic ∧
    (buildEnvelope topic payload key (uuidNext s).1 now).payload = payload ∧
    (buildEnvelope topic payload key (uuidNext s).1 now).event_id ≠
      (buildEnvelope topic payload key (uuidNext (uuidNext s).2).1 now).event_id := by
  refine ⟨rfl, rfl, ?_⟩
  simp [buildEnvelope, uuidNext]

/-- C9 counterexample: the claim says an invalid numeric env value for
handler max-retries or retry backoff causes a fail-fast error.  Both
parsers instead catch the `ValueError` from `int(...)` and silently
substitute the defaults: with `EVENT_BUS_HANDLER_MAX_RETRIES=abc` and
`EVENT_BUS_HANDLER_RETRY_BACKOFF_MS=abc` setup completes normally with the
defaults 2 and 200.  (The queue-capacity and broker-timeout env reads in
`_create_event_bus` do raise on invalid values; the two cited by the claim
do not.) -/
theorem c9_invalid_env_silently_defaults :
    maxHandlerRetries (some "abc") = 2 ∧ handlerRetryBackoffMs (some "abc") = 200 := by
  decide

/-- C9 as amended: an invalid numeric value for
`EVENT_BUS_HANDLER_MAX_RETRIES` or `EVENT_BUS_HANDLER_RETRY_BACKOFF_MS`
(one whose stripped form is non-empty and unparseable as an integer) is
silently replaced by the respective default (2 retries, 200 ms); no error
is raised at setup time. -/
theorem c9_amended_invalid_env_defaults (raw : String)
    (hne : pyStrip raw ≠ "")
    (hbad : pyInt (pyStrip raw) = none) :
    maxHandlerRetries (some raw) = 2 ∧ handlerRetryBackoffMs (some raw) = 200 := by
  constructor
  · simp [maxHandlerRetries, hne, hbad]
  · simp [handlerRetryBackoffMs, hne, hbad]

/-- Witness for the amended C9 at the unparseable value `"abc"`. -/
theorem c9_amended_invalid_env_defaults_witness :
    maxHandlerRetries (some "abc") = 2 ∧ handlerRetryBackoffMs (some "abc") = 200 :=
  c9_amended_invalid_env_defaults "abc" (by decide) (by decide)

end EventBus
